import Mathlib

/-!
# Transaction-batch lifecycle of the openchain ledger

A shallow embedding of `src/openchain/ledger.go`.  The ledger's methods
become state-passing functions `Ledger → … → GoError × Ledger`.  The two
collaborators the ledger holds (`*Blockchain`, `*State`) and the `protos`
block type are declared outside the file under study; their data is
modelled from the specification and the behaviour of their fallible methods
is taken as a parameter (`Collaborators`).
-/

namespace Openchain

/-- A Go `error` value: `none` is the `nil` error, `some msg` an error whose
`Error()` text is `msg`. -/
abbrev GoError := Option String

/-- The dynamic value held by a non-nil `interface{}`.  Strings and ints are
spelled out; `other` stands for a value of any other dynamic type, carried
together with the text that the `%s` verb prints for it. -/
inductive Dyn where
  | str (s : String)
  | int (n : Int)
  | other (typeName : String) (rendered : String)
  deriving DecidableEq, Repr

/-- A Go `interface{}`: `none` is the nil interface. -/
abbrev Iface := Option Dyn

/-- What `fmt` prints for the verb `%s` applied to a non-nil interface value:
a string is printed as it is, an int is reported as a bad verb. -/
def Dyn.fmtS : Dyn → String
  | .str s => s
  | .int n => "%!s(int=" ++ toString n ++ ")"
  | .other _ rendered => rendered

/-- Modelled from the spec: the transaction record `protos.Transaction`, which
is opaque to the ledger and only passed through to block construction. -/
structure Transaction where
  payload : List Nat
  deriving DecidableEq, Repr

/-- Modelled from the spec: the block type `protos.Block`, "the durable unit
appended to the block store, containing a transaction set and a proof",
together with the proposer identity that `NewBlock` receives. -/
structure Block where
  proposerID : String
  transactions : List Transaction
  proof : List Nat
  deriving DecidableEq, Repr

/-- Modelled from the spec: `protos.NewBlock(proposerIdentity, transactions)`,
a pure construction.  It has no proof argument, so the proof of the block it
returns is the zero value. -/
def NewBlock (proposerID : String) (transactions : List Transaction) : Block :=
  { proposerID := proposerID, transactions := transactions, proof := [] }

/-- Modelled from the spec: the block-storage collaborator `Blockchain`, an
append-only chain of blocks. -/
structure Blockchain where
  blocks : List Block
  deriving DecidableEq, Repr

/-- Modelled from the spec: the state collaborator `State`, the committed
key/value state together with the temporary in-memory overlay of uncommitted
changes. -/
structure State where
  committed : List (String × List Nat)
  inMemory : List (String × List Nat)
  deriving DecidableEq, Repr

/-- Modelled from the spec: `State.ClearInMemoryChanges()`, which "discards
the uncommitted overlay" and is idempotent. -/
def State.ClearInMemoryChanges (state : State) : State :=
  { state with inMemory := [] }

/-- The collaborator methods whose bodies are not part of the file under
study, taken as parameters: `Blockchain.AddBlock(ctx, block) error` (durable
append, may fail) and `State.GetTempStateHash() ([]byte, error)` (hash over
committed and overlaid state, may fail). -/
structure Collaborators where
  AddBlock : Blockchain → Block → Blockchain × GoError
  GetTempStateHash : State → List Nat × GoError

/-- One invocation made by the ledger on a collaborator or on `protos`. -/
inductive Call where
  | NewBlock (proposerID : String) (transactions : List Transaction)
  | AddBlock (block : Block)
  | ClearInMemoryChanges
  | GetTempStateHash
  deriving DecidableEq, Repr

/-- The `Ledger` struct.  `blockchain`, `state` and `currentID` are the
fields of the source; `calls` is a ghost field that records, oldest first,
every invocation the ledger has made on its collaborators. -/
structure Ledger where
  blockchain : Blockchain
  state : State
  currentID : Iface
  calls : List Call
  deriving DecidableEq, Repr

/-- `checkValidID`: an error naming the batch in progress when `currentID`
is not nil, `nil` otherwise.  The argument `id` is not inspected. -/
def Ledger.checkValidID (ledger : Ledger) (_id : Iface) : GoError :=
  match ledger.currentID with
  | some cur => some ("Another TxGroup [" ++ cur.fmtS ++ "] already in-progress")
  | none => none

/-- `resetForNextTxGroup`: sets `currentID` to nil and calls
`state.ClearInMemoryChanges()`. -/
def Ledger.resetForNextTxGroup (ledger : Ledger) : Ledger :=
  { ledger with
    currentID := none
    state := ledger.state.ClearInMemoryChanges
    calls := ledger.calls ++ [Call.ClearInMemoryChanges] }

/-- `BeginTxBatch`: returns the error of `checkValidID` if there is one,
otherwise stores `id` in `currentID`. -/
def Ledger.BeginTxBatch (ledger : Ledger) (id : Iface) : GoError × Ledger :=
  match ledger.checkValidID id with
  | some err => (some err, ledger)
  | none => (none, { ledger with currentID := id })

/-- `CommitTxBatch`: returns the error of `checkValidID` if there is one;
otherwise builds a block with the fixed proposer text and the transactions,
calls `AddBlock` on it (the error it returns is dropped), resets and returns
`nil`.  The argument `proof` is not used. -/
def Ledger.CommitTxBatch (env : Collaborators) (ledger : Ledger) (id : Iface)
    (transactions : List Transaction) (_proof : List Nat) : GoError × Ledger :=
  match ledger.checkValidID id with
  | some err => (some err, ledger)
  | none =>
    let block := NewBlock "proposerID string" transactions
    let added := env.AddBlock ledger.blockchain block
    let ledger1 : Ledger :=
      { ledger with
        blockchain := added.1
        calls := ledger.calls ++
          [Call.NewBlock "proposerID string" transactions, Call.AddBlock block] }
    (none, ledger1.resetForNextTxGroup)

/-- `RollbackTxBatch`: returns the error of `checkValidID` if there is one,
otherwise resets and returns `nil`. -/
def Ledger.RollbackTxBatch (ledger : Ledger) (id : Iface) : GoError × Ledger :=
  match ledger.checkValidID id with
  | some err => (some err, ledger)
  | none => (none, ledger.resetForNextTxGroup)

/-- `GetTempStateHash`: returns what `state.GetTempStateHash()` returns. -/
def Ledger.GetTempStateHash (env : Collaborators) (ledger : Ledger) :
    (List Nat × GoError) × Ledger :=
  (env.GetTempStateHash ledger.state,
    { ledger with calls := ledger.calls ++ [Call.GetTempStateHash] })

/-! ## Concrete collaborators and ledgers used to exercise the model -/

/-- A block store whose append always succeeds and puts the block at the end
of the chain; the temporary hash lists the sizes of both parts of the state. -/
def appendingStore : Collaborators :=
  { AddBlock := fun bc block => ({ blocks := bc.blocks ++ [block] }, none)
    GetTempStateHash := fun st => ([st.committed.length, st.inMemory.length], none) }

/-- A block store whose append always fails and leaves the chain as it was. -/
def failingStore : Collaborators :=
  { AddBlock := fun bc _ => (bc, some "append failed")
    GetTempStateHash := fun st => ([st.committed.length, st.inMemory.length], none) }

/-- A ledger with no batch in progress, an empty chain and one uncommitted
change in the overlay. -/
def idleLedger : Ledger :=
  { blockchain := { blocks := [] }
    state := { committed := [("a", [1])], inMemory := [("k", [7])] }
    currentID := none
    calls := [] }

/-- The ledger `idleLedger` after `BeginTxBatch("tx1")`. -/
def activeLedger : Ledger :=
  { idleLedger with currentID := some (Dyn.str "tx1") }

/-- Two transactions. -/
def sampleTxs : List Transaction :=
  [{ payload := [1] }, { payload := [2] }]

/-! ## Sequences of calls on one ledger -/

/-- One call of a method of the ledger, with its arguments. -/
inductive Op where
  | begin (id : Iface)
  | commit (id : Iface) (transactions : List Transaction) (proof : List Nat)
  | rollback (id : Iface)
  | tempHash
  deriving DecidableEq, Repr

/-- Whether the call is one of the three lifecycle operations
(`BeginTxBatch`, `CommitTxBatch`, `RollbackTxBatch`). -/
def Op.isLifecycle : Op → Bool
  | .tempHash => false
  | _ => true

/-- Performs one call: the error the method returns and the ledger it
leaves. -/
def Ledger.step (env : Collaborators) (ledger : Ledger) : Op → GoError × Ledger
  | .begin id => ledger.BeginTxBatch id
  | .commit id transactions proof => ledger.CommitTxBatch env id transactions proof
  | .rollback id => ledger.RollbackTxBatch id
  | .tempHash => ((ledger.GetTempStateHash env).1.2, (ledger.GetTempStateHash env).2)

/-- Performs the calls one after the other: each call paired with the error
it returned, and the ledger left at the end. -/
def Ledger.run (env : Collaborators) (ledger : Ledger) :
    List Op → List (Op × GoError) × Ledger
  | [] => ([], ledger)
  | op :: rest =>
    let r := ledger.step env op
    let rs := r.2.run env rest
    ((op, r.1) :: rs.1, rs.2)

/-- What it means for a call that turns the ledger `before` into `after` to
clear `currentID` and the overlay together or not at all: either the state
collaborator is as it was, or `currentID` is nil and the overlay is empty
afterwards; and `currentID` has not gone from non-nil to nil while the
overlay is left non-empty. -/
def Ledger.resetsTogether (before after : Ledger) : Prop :=
  (after.state = before.state ∨ (after.currentID = none ∧ after.state.inMemory = [])) ∧
  (before.currentID = none ∨ after.currentID ≠ none ∨ after.state.inMemory = [])

/-! ## The package-level singleton -/

/-- A `*Ledger`: `none` is the nil pointer, `some a` the address of a
`Ledger` allocated on the heap. -/
abbrev LedgerPtr := Option Nat

/-- The package-level state read and written by `GetLedger` in a sequential
run.  `heap` holds the `Ledger` objects allocated so far by `&Ledger{...}`,
the address of an object being its position; `ledger` is the package
variable `var ledger *Ledger`; `acquired` is a ghost counter of the calls
made to `GetBlockchain`.  The package variable `mutex` is left out: in a
sequential run it is unlocked at every entry of `GetLedger`, and the deferred
`Unlock` releases it on every return path. -/
structure Package where
  heap : List Ledger
  ledger : LedgerPtr
  acquired : Nat
  deriving DecidableEq, Repr

/-- `GetLedger`.  `getBlockchain` is what `GetBlockchain()` returns if it is
called during this call (a block store and an error, the block store being
ignored when the error is not nil) and `getState` what `GetState()` returns.
When the package variable is nil (the test is made twice, before and after
taking the lock) the block store is acquired; on error `(nil, err)` is
returned and the variable is left nil, otherwise a fresh
`Ledger{blockchain, state, nil}` is allocated and stored in the variable.
The result is the value of the variable and a nil error. -/
def GetLedger (getBlockchain : Blockchain × GoError) (getState : State) (pkg : Package) :
    (LedgerPtr × GoError) × Package :=
  if pkg.ledger = none then
    if pkg.ledger = none then
      let pkg1 : Package := { pkg with acquired := pkg.acquired + 1 }
      match getBlockchain.2 with
      | some err => ((none, some err), pkg1)
      | none =>
        let fresh : Ledger :=
          { blockchain := getBlockchain.1, state := getState, currentID := none, calls := [] }
        let pkg2 : Package :=
          { pkg1 with heap := pkg1.heap ++ [fresh], ledger := some pkg1.heap.length }
        ((pkg2.ledger, none), pkg2)
    else
      ((pkg.ledger, none), pkg)
  else
    ((pkg.ledger, none), pkg)

/-- One sequential step of a client of the package: a call of `GetLedger`
(with what `GetBlockchain` and `GetState` would return during it), or a call
of a method on the `Ledger` at address `ptr`. -/
inductive PkgOp where
  | getLedger (getBlockchain : Blockchain × GoError) (getState : State)
  | method (ptr : Nat) (op : Op)
  deriving DecidableEq, Repr

/-- The package after one step.  A method call rewrites the object at the
given address and nothing else; on an address that is not allocated it has
no effect. -/
def Package.step (env : Collaborators) (pkg : Package) : PkgOp → Package
  | .getLedger getBlockchain getState => (GetLedger getBlockchain getState pkg).2
  | .method ptr op =>
    match pkg.heap.get? ptr with
    | some obj => { pkg with heap := pkg.heap.set ptr (obj.step env op).2 }
    | none => pkg

/-- The package after a sequence of steps. -/
def Package.later (env : Collaborators) (pkg : Package) : List PkgOp → Package
  | [] => pkg
  | op :: rest => (pkg.step env op).later env rest

/-- The package before the first call of `GetLedger`. -/
def emptyPackage : Package :=
  { heap := [], ledger := none, acquired := 0 }

/-- A package whose singleton has been constructed and has the batch `"tx1"`
in progress. -/
def constructedPackage : Package :=
  { heap := [activeLedger], ledger := some 0, acquired := 1 }

/-- A short sequence of calls of all four kinds. -/
def sampleOps : List Op :=
  [Op.tempHash, Op.begin (some (Dyn.str "tx2")), Op.commit (some (Dyn.str "tx1")) sampleTxs [9],
   Op.rollback none, Op.tempHash]

/-! ## Basic facts about the validity check -/

theorem checkValidID_of_idle (ledger : Ledger) (id : Iface)
    (h : ledger.currentID = none) : ledger.checkValidID id = none := by
  simp [Ledger.checkValidID, h]

theorem checkValidID_of_active (ledger : Ledger) (id : Iface) (cur : Dyn)
    (h : ledger.currentID = some cur) :
    ledger.checkValidID id =
      some ("Another TxGroup [" ++ cur.fmtS ++ "] already in-progress") := by
  simp [Ledger.checkValidID, h]

theorem checkValidID_eq_none_iff (ledger : Ledger) (id : Iface) :
    ledger.checkValidID id = none ↔ ledger.currentID = none := by
  unfold Ledger.checkValidID
  cases ledger.currentID <;> simp

theorem BeginTxBatch_of_active (ledger : Ledger) (id : Iface) (cur : Dyn)
    (h : ledger.currentID = some cur) :
    ledger.BeginTxBatch id =
      (some ("Another TxGroup [" ++ cur.fmtS ++ "] already in-progress"), ledger) := by
  simp [Ledger.BeginTxBatch, checkValidID_of_active ledger id cur h]

theorem BeginTxBatch_of_idle (ledger : Ledger) (id : Iface)
    (h : ledger.currentID = none) :
    ledger.BeginTxBatch id = (none, { ledger with currentID := id }) := by
  simp [Ledger.BeginTxBatch, checkValidID_of_idle ledger id h]

theorem CommitTxBatch_of_active (env : Collaborators) (ledger : Ledger) (id : Iface)
    (transactions : List Transaction) (proof : List Nat) (cur : Dyn)
    (h : ledger.currentID = some cur) :
    ledger.CommitTxBatch env id transactions proof =
      (some ("Another TxGroup [" ++ cur.fmtS ++ "] already in-progress"), ledger) := by
  simp [Ledger.CommitTxBatch, checkValidID_of_active ledger id cur h]

theorem CommitTxBatch_of_idle (env : Collaborators) (ledger : Ledger) (id : Iface)
    (transactions : List Transaction) (proof : List Nat)
    (h : ledger.currentID = none) :
    ledger.CommitTxBatch env id transactions proof =
      (none,
        { blockchain :=
            (env.AddBlock ledger.blockchain (NewBlock "proposerID string" transactions)).1
          state := ledger.state.ClearInMemoryChanges
          currentID := none
          calls := ledger.calls ++
            [Call.NewBlock "proposerID string" transactions,
             Call.AddBlock (NewBlock "proposerID string" transactions),
             Call.ClearInMemoryChanges] }) := by
  simp [Ledger.CommitTxBatch, checkValidID_of_idle ledger id h, Ledger.resetForNextTxGroup]

theorem RollbackTxBatch_of_active (ledger : Ledger) (id : Iface) (cur : Dyn)
    (h : ledger.currentID = some cur) :
    ledger.RollbackTxBatch id =
      (some ("Another TxGroup [" ++ cur.fmtS ++ "] already in-progress"), ledger) := by
  simp [Ledger.RollbackTxBatch, checkValidID_of_active ledger id cur h]

theorem RollbackTxBatch_of_idle (ledger : Ledger) (id : Iface)
    (h : ledger.currentID = none) :
    ledger.RollbackTxBatch id =
      (none,
        { blockchain := ledger.blockchain
          state := ledger.state.ClearInMemoryChanges
          currentID := none
          calls := ledger.calls ++ [Call.ClearInMemoryChanges] }) := by
  simp [Ledger.RollbackTxBatch, checkValidID_of_idle ledger id h, Ledger.resetForNextTxGroup]

/-! ## BeginTxBatch -/

/-- C1: whenever a batch is active (`currentID` is not nil), `BeginTxBatch`
returns an error for every id and leaves `currentID` as it was; and
`BeginTxBatch` returns success only if the coordinator was Idle at entry. -/
theorem BeginTxBatch_mutual_exclusion (ledger : Ledger) (id : Iface) :
    (ledger.currentID ≠ none →
      (ledger.BeginTxBatch id).1 ≠ none ∧
      (ledger.BeginTxBatch id).2.currentID = ledger.currentID) ∧
    ((ledger.BeginTxBatch id).1 = none → ledger.currentID = none) := by
  cases h : ledger.currentID with
  | none => simp
  | some cur => simp [BeginTxBatch_of_active ledger id cur h, h]

/-- C1 at concrete ledgers: a second begin on the active ledger fails and
keeps `"tx1"`, and the ledger on which a begin succeeds is idle. -/
theorem BeginTxBatch_mutual_exclusion_witness :
    activeLedger.currentID ≠ none ∧
    ((activeLedger.BeginTxBatch (some (Dyn.str "tx2"))).1 ≠ none ∧
      (activeLedger.BeginTxBatch (some (Dyn.str "tx2"))).2.currentID
        = activeLedger.currentID) ∧
    (idleLedger.BeginTxBatch (some (Dyn.str "tx1"))).1 = none ∧
    idleLedger.currentID = none :=
  ⟨by decide,
   (BeginTxBatch_mutual_exclusion activeLedger (some (Dyn.str "tx2"))).1 (by decide),
   by decide,
   (BeginTxBatch_mutual_exclusion idleLedger (some (Dyn.str "tx1"))).2 (by decide)⟩

/-- C2: on an Idle coordinator, `BeginTxBatch` with a non-nil id returns
success and stores the id in `currentID`; the state collaborator, the block
store and the record of collaborator calls are unchanged, so neither
`ClearInMemoryChanges` nor `AddBlock` is invoked. -/
theorem BeginTxBatch_idle_sets_marker_only (ledger : Ledger) (v : Dyn)
    (h : ledger.currentID = none) :
    (ledger.BeginTxBatch (some v)).1 = none ∧
    (ledger.BeginTxBatch (some v)).2.currentID = some v ∧
    (ledger.BeginTxBatch (some v)).2.state = ledger.state ∧
    (ledger.BeginTxBatch (some v)).2.blockchain = ledger.blockchain ∧
    (ledger.BeginTxBatch (some v)).2.calls = ledger.calls := by
  simp [BeginTxBatch_of_idle ledger (some v) h]

/-- C2 at the idle sample ledger with the id `"tx1"`. -/
theorem BeginTxBatch_idle_sets_marker_only_witness :
    idleLedger.currentID = none ∧
    (idleLedger.BeginTxBatch (some (Dyn.str "tx1"))).1 = none ∧
    (idleLedger.BeginTxBatch (some (Dyn.str "tx1"))).2.currentID = some (Dyn.str "tx1") ∧
    (idleLedger.BeginTxBatch (some (Dyn.str "tx1"))).2.state = idleLedger.state ∧
    (idleLedger.BeginTxBatch (some (Dyn.str "tx1"))).2.blockchain = idleLedger.blockchain ∧
    (idleLedger.BeginTxBatch (some (Dyn.str "tx1"))).2.calls = idleLedger.calls :=
  ⟨by decide, BeginTxBatch_idle_sets_marker_only idleLedger (Dyn.str "tx1") (by decide)⟩

/-! ## CommitTxBatch -/

/-- C3, the code at the scenario `Begin("tx1")` then `Commit("tx1", [t1, t2],
proof)` with a block store whose append succeeds: the begin succeeds, the
commit returns the error naming `"tx1"`, no call reaches the block store, the
chain is still empty, the overlay is still there and the batch is still
active. -/
theorem CommitTxBatch_after_begin_is_rejected :
    (idleLedger.BeginTxBatch (some (Dyn.str "tx1"))).1 = none ∧
    (idleLedger.BeginTxBatch (some (Dyn.str "tx1"))).2.CommitTxBatch appendingStore
        (some (Dyn.str "tx1")) sampleTxs [9]
      = (some "Another TxGroup [tx1] already in-progress",
         { blockchain := { blocks := [] }
           state := { committed := [("a", [1])], inMemory := [("k", [7])] }
           currentID := some (Dyn.str "tx1")
           calls := [] }) := by
  decide

/-- C4, the code at `Commit("tx1", [t1, t2], proof)` on an Idle coordinator:
the commit returns `nil`, builds a block and hands it to `AddBlock`, the chain
grows by that block and the overlay is discarded. -/
theorem CommitTxBatch_when_idle_appends :
    idleLedger.currentID = none ∧
    idleLedger.CommitTxBatch appendingStore (some (Dyn.str "tx1")) sampleTxs [9]
      = (none,
         { blockchain := { blocks := [NewBlock "proposerID string" sampleTxs] }
           state := { committed := [("a", [1])], inMemory := [] }
           currentID := none
           calls := [Call.NewBlock "proposerID string" sampleTxs,
                     Call.AddBlock (NewBlock "proposerID string" sampleTxs),
                     Call.ClearInMemoryChanges] }) := by
  decide

/-- C5, the code at a commit whose `AddBlock` fails: `AddBlock` is invoked and
returns an error, yet `CommitTxBatch` returns `nil` and performs the reset
(the overlay, not empty at entry, is discarded). -/
theorem CommitTxBatch_drops_append_error :
    (failingStore.AddBlock idleLedger.blockchain
        (NewBlock "proposerID string" sampleTxs)).2 = some "append failed" ∧
    idleLedger.state.inMemory ≠ [] ∧
    idleLedger.CommitTxBatch failingStore (some (Dyn.str "tx1")) sampleTxs [9]
      = (none,
         { blockchain := { blocks := [] }
           state := { committed := [("a", [1])], inMemory := [] }
           currentID := none
           calls := [Call.NewBlock "proposerID string" sampleTxs,
                     Call.AddBlock (NewBlock "proposerID string" sampleTxs),
                     Call.ClearInMemoryChanges] }) := by
  decide

/-! ## RollbackTxBatch -/

/-- C6, the code at a rollback of the active batch `"tx1"` and at a rollback
on an Idle coordinator: the first returns the error naming `"tx1"` and changes
nothing (the batch stays active, the overlay stays), the second returns
`nil`. -/
theorem RollbackTxBatch_succeeds_only_when_idle :
    activeLedger.currentID = some (Dyn.str "tx1") ∧
    activeLedger.RollbackTxBatch (some (Dyn.str "tx1"))
      = (some "Another TxGroup [tx1] already in-progress", activeLedger) ∧
    idleLedger.currentID = none ∧
    (idleLedger.RollbackTxBatch (some (Dyn.str "tx1"))).1 = none := by
  decide

/-- C7: `RollbackTxBatch` leaves the block store exactly as it was, whether
it fails or succeeds: the chain is unchanged and the only call it may add to
the record of collaborator calls is one `ClearInMemoryChanges`, so no block
is constructed and `AddBlock` is not called. -/
theorem RollbackTxBatch_never_touches_block_store (ledger : Ledger) (id : Iface) :
    (ledger.RollbackTxBatch id).2.blockchain = ledger.blockchain ∧
    ((ledger.RollbackTxBatch id).2.calls = ledger.calls ∨
      (ledger.RollbackTxBatch id).2.calls = ledger.calls ++ [Call.ClearInMemoryChanges]) := by
  cases h : ledger.currentID with
  | none => simp [RollbackTxBatch_of_idle ledger id h]
  | some cur => simp [RollbackTxBatch_of_active ledger id cur h]

/-! ## Reset after a terminal operation -/

/-- C8: if `CommitTxBatch` or `RollbackTxBatch` returns success, then in the
resulting state `currentID` is nil and the overlay of the state collaborator
is empty, the committed part is the one at entry, and a following
`GetTempStateHash` returns what the collaborator computes over the committed
state with an empty overlay. -/
theorem terminal_success_resets (env : Collaborators) (ledger : Ledger) (id : Iface)
    (transactions : List Transaction) (proof : List Nat) :
    ((ledger.CommitTxBatch env id transactions proof).1 = none →
      (ledger.CommitTxBatch env id transactions proof).2.currentID = none ∧
      (ledger.CommitTxBatch env id transactions proof).2.state.inMemory = [] ∧
      (ledger.CommitTxBatch env id transactions proof).2.state.committed
        = ledger.state.committed ∧
      ((ledger.CommitTxBatch env id transactions proof).2.GetTempStateHash env).1
        = env.GetTempStateHash { committed := ledger.state.committed, inMemory := [] }) ∧
    ((ledger.RollbackTxBatch id).1 = none →
      (ledger.RollbackTxBatch id).2.currentID = none ∧
      (ledger.RollbackTxBatch id).2.state.inMemory = [] ∧
      (ledger.RollbackTxBatch id).2.state.committed = ledger.state.committed ∧
      ((ledger.RollbackTxBatch id).2.GetTempStateHash env).1
        = env.GetTempStateHash { committed := ledger.state.committed, inMemory := [] }) := by
  cases h : ledger.currentID with
  | none =>
    simp [CommitTxBatch_of_idle env ledger id transactions proof h,
      RollbackTxBatch_of_idle ledger id h, Ledger.GetTempStateHash,
      State.ClearInMemoryChanges]
  | some cur =>
    simp [CommitTxBatch_of_active env ledger id transactions proof cur h,
      RollbackTxBatch_of_active ledger id cur h]

/-- C8 at the idle sample ledger, whose overlay is not empty at entry: both
terminal operations succeed there and leave it idle with an empty overlay. -/
theorem terminal_success_resets_witness :
    idleLedger.state.inMemory ≠ [] ∧
    (idleLedger.CommitTxBatch appendingStore (some (Dyn.str "tx1")) sampleTxs [9]).1 = none ∧
    ((idleLedger.CommitTxBatch appendingStore (some (Dyn.str "tx1")) sampleTxs [9]).2.currentID
        = none ∧
      (idleLedger.CommitTxBatch appendingStore (some (Dyn.str "tx1")) sampleTxs [9]).2.state.inMemory
        = [] ∧
      (idleLedger.CommitTxBatch appendingStore (some (Dyn.str "tx1")) sampleTxs [9]).2.state.committed
        = idleLedger.state.committed ∧
      ((idleLedger.CommitTxBatch appendingStore (some (Dyn.str "tx1")) sampleTxs
          [9]).2.GetTempStateHash appendingStore).1
        = appendingStore.GetTempStateHash
            { committed := idleLedger.state.committed, inMemory := [] }) ∧
    (idleLedger.RollbackTxBatch (some (Dyn.str "tx1"))).1 = none ∧
    ((idleLedger.RollbackTxBatch (some (Dyn.str "tx1"))).2.currentID = none ∧
      (idleLedger.RollbackTxBatch (some (Dyn.str "tx1"))).2.state.inMemory = [] ∧
      (idleLedger.RollbackTxBatch (some (Dyn.str "tx1"))).2.state.committed
        = idleLedger.state.committed ∧
      ((idleLedger.RollbackTxBatch (some (Dyn.str "tx1"))).2.GetTempStateHash
          appendingStore).1
        = appendingStore.GetTempStateHash
            { committed := idleLedger.state.committed, inMemory := [] }) :=
  ⟨by decide, by decide,
   (terminal_success_resets appendingStore idleLedger (some (Dyn.str "tx1")) sampleTxs [9]).1
     (by decide),
   by decide,
   (terminal_success_resets appendingStore idleLedger (some (Dyn.str "tx1")) sampleTxs [9]).2
     (by decide)⟩

/-! ## Errors -/

/-- C9: for each of `BeginTxBatch`, `CommitTxBatch` and `RollbackTxBatch`,
whenever the operation returns an error the ledger it leaves is the ledger at
entry: `currentID`, the state overlay, the chain of the block store and the
record of collaborator calls are all unchanged.  The only error any of the
three returns is the conflict error of `checkValidID`. -/
theorem conflict_error_leaves_ledger_unchanged (env : Collaborators) (ledger : Ledger)
    (id : Iface) (transactions : List Transaction) (proof : List Nat) :
    ((ledger.BeginTxBatch id).1 ≠ none →
      (ledger.BeginTxBatch id).1 = ledger.checkValidID id ∧
      (ledger.BeginTxBatch id).2 = ledger) ∧
    ((ledger.CommitTxBatch env id transactions proof).1 ≠ none →
      (ledger.CommitTxBatch env id transactions proof).1 = ledger.checkValidID id ∧
      (ledger.CommitTxBatch env id transactions proof).2 = ledger) ∧
    ((ledger.RollbackTxBatch id).1 ≠ none →
      (ledger.RollbackTxBatch id).1 = ledger.checkValidID id ∧
      (ledger.RollbackTxBatch id).2 = ledger) := by
  cases h : ledger.currentID with
  | none =>
    simp [BeginTxBatch_of_idle ledger id h,
      CommitTxBatch_of_idle env ledger id transactions proof h,
      RollbackTxBatch_of_idle ledger id h]
  | some cur =>
    simp [BeginTxBatch_of_active ledger id cur h,
      CommitTxBatch_of_active env ledger id transactions proof cur h,
      RollbackTxBatch_of_active ledger id cur h, checkValidID_of_active ledger id cur h]

/-- C9 at the active sample ledger: each of the three operations returns an
error there and hands back the ledger unchanged. -/
theorem conflict_error_leaves_ledger_unchanged_witness :
    ((activeLedger.BeginTxBatch (some (Dyn.str "tx2"))).1 ≠ none ∧
      (activeLedger.BeginTxBatch (some (Dyn.str "tx2"))).2 = activeLedger) ∧
    ((activeLedger.CommitTxBatch appendingStore (some (Dyn.str "tx2")) sampleTxs [9]).1 ≠ none ∧
      (activeLedger.CommitTxBatch appendingStore (some (Dyn.str "tx2")) sampleTxs [9]).2
        = activeLedger) ∧
    ((activeLedger.RollbackTxBatch (some (Dyn.str "tx2"))).1 ≠ none ∧
      (activeLedger.RollbackTxBatch (some (Dyn.str "tx2"))).2 = activeLedger) :=
  ⟨⟨by decide,
    ((conflict_error_leaves_ledger_unchanged appendingStore activeLedger
      (some (Dyn.str "tx2")) sampleTxs [9]).1 (by decide)).2⟩,
   ⟨by decide,
    ((conflict_error_leaves_ledger_unchanged appendingStore activeLedger
      (some (Dyn.str "tx2")) sampleTxs [9]).2.1 (by decide)).2⟩,
   ⟨by decide,
    ((conflict_error_leaves_ledger_unchanged appendingStore activeLedger
      (some (Dyn.str "tx2")) sampleTxs [9]).2.2 (by decide)).2⟩⟩

/-- C10: starting from Idle, for all strings `a` and `b`, `BeginTxBatch(a)`
succeeds and the following `BeginTxBatch(b)` fails with the error whose text
is `Another TxGroup [a] already in-progress`; the text contains `a` and is
the same for every second id. -/
theorem second_BeginTxBatch_names_active_id (ledger : Ledger) (a b : String)
    (h : ledger.currentID = none) :
    (ledger.BeginTxBatch (some (Dyn.str a))).1 = none ∧
    ((ledger.BeginTxBatch (some (Dyn.str a))).2.BeginTxBatch (some (Dyn.str b))).1
      = some ("Another TxGroup [" ++ a ++ "] already in-progress") ∧
    (∀ id2 : Iface,
      ((ledger.BeginTxBatch (some (Dyn.str a))).2.BeginTxBatch id2).1
        = ((ledger.BeginTxBatch (some (Dyn.str a))).2.BeginTxBatch (some (Dyn.str b))).1) := by
  have h1 : (ledger.BeginTxBatch (some (Dyn.str a))).2.currentID = some (Dyn.str a) := by
    simp [BeginTxBatch_of_idle ledger _ h]
  refine ⟨by simp [BeginTxBatch_of_idle ledger _ h], ?_, ?_⟩
  · rw [BeginTxBatch_of_active _ _ _ h1]
    simp [Dyn.fmtS]
  · intro id2
    rw [BeginTxBatch_of_active _ _ _ h1, BeginTxBatch_of_active _ _ _ h1]

/-- C10 at the scenario `Begin("tx1")` then `Begin("tx2")`: the second begin
fails with the text that mentions `tx1`. -/
theorem second_BeginTxBatch_names_active_id_witness :
    idleLedger.currentID = none ∧
    ((idleLedger.BeginTxBatch (some (Dyn.str "tx1"))).2.BeginTxBatch (some (Dyn.str "tx2"))).1
      = some ("Another TxGroup [" ++ "tx1" ++ "] already in-progress") :=
  ⟨by decide, (second_BeginTxBatch_names_active_id idleLedger "tx1" "tx2" (by decide)).2.1⟩

/-! ## The id argument of the terminal operations -/

/-- C11: the outcome of `CommitTxBatch` and of `RollbackTxBatch`, error and
resulting ledger, is the same for any two supplied ids; the id is never
compared with `currentID`, the error is nil exactly when `currentID` is
nil. -/
theorem terminal_outcome_independent_of_id (env : Collaborators) (ledger : Ledger)
    (id1 id2 : Iface) (transactions : List Transaction) (proof : List Nat) :
    ledger.CommitTxBatch env id1 transactions proof
      = ledger.CommitTxBatch env id2 transactions proof ∧
    ledger.RollbackTxBatch id1 = ledger.RollbackTxBatch id2 ∧
    ((ledger.CommitTxBatch env id1 transactions proof).1 = none ↔ ledger.currentID = none) ∧
    ((ledger.RollbackTxBatch id1).1 = none ↔ ledger.currentID = none) := by
  cases h : ledger.currentID with
  | none =>
    simp [CommitTxBatch_of_idle env ledger _ transactions proof h,
      RollbackTxBatch_of_idle ledger _ h]
  | some cur =>
    simp [CommitTxBatch_of_active env ledger _ transactions proof cur h,
      RollbackTxBatch_of_active ledger _ cur h]

/-! ## GetTempStateHash -/

/-- C12: in every state `GetTempStateHash` returns exactly the pair of hash
and error that the state collaborator returns, so it fails exactly when the
collaborator fails, and it leaves `currentID`, the state (overlay included)
and the block store unchanged; the one call it makes is `GetTempStateHash`
on the collaborator. -/
theorem GetTempStateHash_is_pure_read (env : Collaborators) (ledger : Ledger) :
    (ledger.GetTempStateHash env).1 = env.GetTempStateHash ledger.state ∧
    ((ledger.GetTempStateHash env).1.2 ≠ none ↔
      (env.GetTempStateHash ledger.state).2 ≠ none) ∧
    (ledger.GetTempStateHash env).2.currentID = ledger.currentID ∧
    (ledger.GetTempStateHash env).2.state = ledger.state ∧
    (ledger.GetTempStateHash env).2.blockchain = ledger.blockchain ∧
    (ledger.GetTempStateHash env).2.calls = ledger.calls ++ [Call.GetTempStateHash] := by
  simp [Ledger.GetTempStateHash]

/-! ## GetLedger -/

theorem GetLedger_of_constructed (getBlockchain : Blockchain × GoError) (getState : State)
    (pkg : Package) (p : Nat) (h : pkg.ledger = some p) :
    GetLedger getBlockchain getState pkg = ((some p, none), pkg) := by
  simp [GetLedger, h]

theorem GetLedger_of_acquire_error (getBlockchain : Blockchain × GoError) (getState : State)
    (pkg : Package) (err : String) (h : pkg.ledger = none) (he : getBlockchain.2 = some err) :
    GetLedger getBlockchain getState pkg
      = ((none, some err), { pkg with acquired := pkg.acquired + 1 }) := by
  simp [GetLedger, h, he]

theorem GetLedger_of_acquire_ok (getBlockchain : Blockchain × GoError) (getState : State)
    (pkg : Package) (h : pkg.ledger = none) (he : getBlockchain.2 = none) :
    GetLedger getBlockchain getState pkg
      = ((some pkg.heap.length, none),
         { heap := pkg.heap ++
             [{ blockchain := getBlockchain.1, state := getState, currentID := none,
                calls := [] }]
           ledger := some pkg.heap.length
           acquired := pkg.acquired + 1 }) := by
  simp [GetLedger, h, he]

theorem Package.step_of_constructed (env : Collaborators) (pkg : Package) (p : Nat)
    (op : PkgOp) (h : pkg.ledger = some p) :
    (pkg.step env op).ledger = some p ∧ (pkg.step env op).acquired = pkg.acquired := by
  cases op with
  | getLedger getBlockchain getState =>
    simp [Package.step, GetLedger_of_constructed getBlockchain getState pkg p h, h]
  | method ptr op =>
    simp only [Package.step]
    cases pkg.heap.get? ptr with
    | none => exact ⟨h, rfl⟩
    | some obj => exact ⟨h, rfl⟩

theorem Package.later_of_constructed (env : Collaborators) (ops : List PkgOp) :
    ∀ (pkg : Package) (p : Nat), pkg.ledger = some p →
      (pkg.later env ops).ledger = some p ∧ (pkg.later env ops).acquired = pkg.acquired := by
  induction ops with
  | nil => intro pkg p h; simp [Package.later, h]
  | cons op rest ih =>
    intro pkg p h
    have hs := Package.step_of_constructed env pkg p op h
    have hr := ih (pkg.step env op) p hs.1
    exact ⟨hr.1, hr.2.trans hs.2⟩

/-- C13: in a sequential run, once a call of `GetLedger` has succeeded it has
returned a non-nil pointer, and after any further steps (calls of `GetLedger`
and calls of methods on allocated ledgers) every call of `GetLedger` returns
that same pointer with a nil error and leaves the package as it is: the
block store is not acquired again (the count of acquisitions stays what it
was after the first success) and no ledger object, so no `currentID`, is
rewritten. -/
theorem GetLedger_returns_same_instance (getBlockchain : Blockchain × GoError)
    (getState : State) (pkg : Package)
    (h : (GetLedger getBlockchain getState pkg).1.2 = none) :
    ∃ p : Nat,
      (GetLedger getBlockchain getState pkg).1.1 = some p ∧
      ∀ (env : Collaborators) (ops : List PkgOp) (getBlockchain2 : Blockchain × GoError)
        (getState2 : State),
        GetLedger getBlockchain2 getState2
            ((GetLedger getBlockchain getState pkg).2.later env ops)
          = ((some p, none), (GetLedger getBlockchain getState pkg).2.later env ops) ∧
        ((GetLedger getBlockchain getState pkg).2.later env ops).acquired
          = (GetLedger getBlockchain getState pkg).2.acquired := by
  have key : ∃ p : Nat, (GetLedger getBlockchain getState pkg).1.1 = some p ∧
      (GetLedger getBlockchain getState pkg).2.ledger = some p := by
    cases hl : pkg.ledger with
    | some q => exact ⟨q, by simp [GetLedger_of_constructed _ _ pkg q hl, hl]⟩
    | none =>
      cases he : getBlockchain.2 with
      | some err => simp [GetLedger_of_acquire_error _ getState pkg err hl he] at h
      | none => exact ⟨pkg.heap.length, by simp [GetLedger_of_acquire_ok _ getState pkg hl he]⟩
  obtain ⟨p, hp1, hp2⟩ := key
  refine ⟨p, hp1, ?_⟩
  intro env ops getBlockchain2 getState2
  have hl := Package.later_of_constructed env ops _ p hp2
  exact ⟨GetLedger_of_constructed _ _ _ p hl.1, hl.2⟩

/-- C13 at the first call on the empty package with a block store that is
acquired without error: the call returns address 0, and after a begin on
that ledger and another call of `GetLedger` a further call still returns
address 0; the ledger there still carries the id `"tx1"`, and the block store
has been acquired once. -/
theorem GetLedger_returns_same_instance_witness :
    (GetLedger ({ blocks := [] }, none) idleLedger.state emptyPackage).1.2 = none ∧
    (∃ p : Nat,
      (GetLedger ({ blocks := [] }, none) idleLedger.state emptyPackage).1.1 = some p ∧
      ∀ (env : Collaborators) (ops : List PkgOp) (getBlockchain2 : Blockchain × GoError)
        (getState2 : State),
        GetLedger getBlockchain2 getState2
            ((GetLedger ({ blocks := [] }, none) idleLedger.state emptyPackage).2.later env ops)
          = ((some p, none),
             (GetLedger ({ blocks := [] }, none) idleLedger.state emptyPackage).2.later env ops) ∧
        ((GetLedger ({ blocks := [] }, none) idleLedger.state emptyPackage).2.later env
            ops).acquired
          = (GetLedger ({ blocks := [] }, none) idleLedger.state emptyPackage).2.acquired) ∧
    GetLedger ({ blocks := [] }, some "cannot open") idleLedger.state
        ((GetLedger ({ blocks := [] }, none) idleLedger.state emptyPackage).2.later
          appendingStore
          [PkgOp.method 0 (Op.begin (some (Dyn.str "tx1"))),
           PkgOp.getLedger ({ blocks := [] }, some "cannot open") idleLedger.state])
      = ((some 0, none), { heap := [activeLedger], ledger := some 0, acquired := 1 }) :=
  ⟨by decide,
   GetLedger_returns_same_instance ({ blocks := [] }, none) idleLedger.state emptyPackage
     (by decide),
   by decide⟩

/-- C14: when the singleton is unconstructed and `GetBlockchain` fails,
`GetLedger` returns `(nil, err)` with that error, the block store has been
asked once more and the singleton is still unconstructed, no ledger having
been allocated; a following call asks the block store again and, when
`GetBlockchain` then succeeds, returns with a nil error a pointer to a fresh
ledger that holds the acquired collaborators and whose `currentID` is nil. -/
theorem GetLedger_retries_after_failure (getBlockchain getBlockchain2 : Blockchain × GoError)
    (getState getState2 : State) (pkg : Package) (err : String)
    (h : pkg.ledger = none) (he : getBlockchain.2 = some err)
    (he2 : getBlockchain2.2 = none) :
    (GetLedger getBlockchain getState pkg).1 = (none, some err) ∧
    (GetLedger getBlockchain getState pkg).2.ledger = none ∧
    (GetLedger getBlockchain getState pkg).2.heap = pkg.heap ∧
    (GetLedger getBlockchain getState pkg).2.acquired = pkg.acquired + 1 ∧
    (GetLedger getBlockchain2 getState2 (GetLedger getBlockchain getState pkg).2).1
      = (some pkg.heap.length, none) ∧
    (GetLedger getBlockchain2 getState2 (GetLedger getBlockchain getState pkg).2).2.ledger
      = some pkg.heap.length ∧
    (GetLedger getBlockchain2 getState2 (GetLedger getBlockchain getState pkg).2).2.acquired
      = pkg.acquired + 2 ∧
    (GetLedger getBlockchain2 getState2 (GetLedger getBlockchain getState pkg).2).2.heap.get?
        pkg.heap.length
      = some { blockchain := getBlockchain2.1, state := getState2, currentID := none,
               calls := [] } := by
  have h1 := GetLedger_of_acquire_error getBlockchain getState pkg err h he
  have h2 := GetLedger_of_acquire_ok getBlockchain2 getState2
    { pkg with acquired := pkg.acquired + 1 } h he2
  rw [h1, h2]
  simp [h]

/-- C14 at the empty package: a first call during which the block store
cannot be opened, then a call during which it can. -/
theorem GetLedger_retries_after_failure_witness :
    emptyPackage.ledger = none ∧
    (GetLedger ({ blocks := [] }, some "cannot open") idleLedger.state emptyPackage).1
      = (none, some "cannot open") ∧
    (GetLedger ({ blocks := [] }, none) idleLedger.state
        (GetLedger ({ blocks := [] }, some "cannot open") idleLedger.state emptyPackage).2).1
      = (some 0, none) :=
  ⟨by decide,
   (GetLedger_retries_after_failure ({ blocks := [] }, some "cannot open")
      ({ blocks := [] }, none) idleLedger.state idleLedger.state emptyPackage "cannot open"
      (by decide) (by decide) (by decide)).1,
   (GetLedger_retries_after_failure ({ blocks := [] }, some "cannot open")
      ({ blocks := [] }, none) idleLedger.state idleLedger.state emptyPackage "cannot open"
      (by decide) (by decide) (by decide)).2.2.2.2.1⟩

/-! ## The block handed to the block store -/

/-- C16, as stated, fails: for the same transactions the two different proofs
`[9]` and `[8]` make `CommitTxBatch` hand the very same block to `AddBlock`
and leave the very same chain, and the proof content of that block is not
the supplied proof. -/
theorem CommitTxBatch_block_lacks_proof :
    ([9] : List Nat) ≠ [8] ∧
    (idleLedger.CommitTxBatch appendingStore (some (Dyn.str "tx1")) sampleTxs [9]).2.calls
      = [Call.NewBlock "proposerID string" sampleTxs,
         Call.AddBlock (NewBlock "proposerID string" sampleTxs),
         Call.ClearInMemoryChanges] ∧
    (idleLedger.CommitTxBatch appendingStore (some (Dyn.str "tx1")) sampleTxs [8]).2.calls
      = [Call.NewBlock "proposerID string" sampleTxs,
         Call.AddBlock (NewBlock "proposerID string" sampleTxs),
         Call.ClearInMemoryChanges] ∧
    (idleLedger.CommitTxBatch appendingStore (some (Dyn.str "tx1")) sampleTxs [9]).2.blockchain
      = (idleLedger.CommitTxBatch appendingStore (some (Dyn.str "tx1")) sampleTxs
          [8]).2.blockchain ∧
    (NewBlock "proposerID string" sampleTxs).proof ≠ [9] := by
  decide

/-- C16, amended: the block that `CommitTxBatch` submits is constructed from
the fixed proposer text and the supplied transaction list only.  The proof
argument is not used: any two proofs give the same error and the same
resulting ledger, hence the same block handed to `AddBlock`; and when a block
is submitted, it is the one `NewBlock` builds from the supplied
transactions, which carries exactly those transactions. -/
theorem CommitTxBatch_block_from_transactions_only (env : Collaborators) (ledger : Ledger)
    (id : Iface) (transactions : List Transaction) (proof1 proof2 : List Nat) :
    ledger.CommitTxBatch env id transactions proof1
      = ledger.CommitTxBatch env id transactions proof2 ∧
    ((ledger.CommitTxBatch env id transactions proof1).2.calls = ledger.calls ∨
      (ledger.CommitTxBatch env id transactions proof1).2.calls
        = ledger.calls ++
          [Call.NewBlock "proposerID string" transactions,
           Call.AddBlock (NewBlock "proposerID string" transactions),
           Call.ClearInMemoryChanges]) ∧
    (NewBlock "proposerID string" transactions).transactions = transactions := by
  cases h : ledger.currentID with
  | none =>
    simp [CommitTxBatch_of_idle env ledger id transactions _ h, NewBlock]
  | some cur =>
    simp [CommitTxBatch_of_active env ledger id transactions _ cur h, NewBlock]

/-! ## Reset helper -/

/-- C17: for every state and input, each of `BeginTxBatch`, `CommitTxBatch`,
`RollbackTxBatch` and `GetTempStateHash` either leaves the state collaborator
(so the overlay) untouched, or leaves `currentID` nil and the overlay empty;
and none of them turns `currentID` from non-nil to nil while leaving a
non-empty overlay. -/
theorem operations_reset_together (env : Collaborators) (ledger : Ledger) (id : Iface)
    (transactions : List Transaction) (proof : List Nat) :
    ledger.resetsTogether (ledger.BeginTxBatch id).2 ∧
    ledger.resetsTogether (ledger.CommitTxBatch env id transactions proof).2 ∧
    ledger.resetsTogether (ledger.RollbackTxBatch id).2 ∧
    ledger.resetsTogether (ledger.GetTempStateHash env).2 := by
  cases h : ledger.currentID with
  | none =>
    simp [Ledger.resetsTogether, BeginTxBatch_of_idle ledger id h,
      CommitTxBatch_of_idle env ledger id transactions proof h,
      RollbackTxBatch_of_idle ledger id h, Ledger.GetTempStateHash, h,
      State.ClearInMemoryChanges]
  | some cur =>
    simp [Ledger.resetsTogether, BeginTxBatch_of_active ledger id cur h,
      CommitTxBatch_of_active env ledger id transactions proof cur h,
      RollbackTxBatch_of_active ledger id cur h, Ledger.GetTempStateHash, h]

/-! ## Sequences of calls while a batch is in progress -/

theorem Ledger.step_of_active (env : Collaborators) (ledger : Ledger) (op : Op) (cur : Dyn)
    (h : ledger.currentID = some cur) :
    (ledger.step env op).2.currentID = some cur ∧
    (ledger.step env op).2.state = ledger.state ∧
    (ledger.step env op).2.blockchain = ledger.blockchain ∧
    (op.isLifecycle = true → (ledger.step env op).1 ≠ none) := by
  cases op with
  | begin id => simp [Ledger.step, BeginTxBatch_of_active ledger id cur h, h]
  | commit id transactions proof =>
    simp [Ledger.step, CommitTxBatch_of_active env ledger id transactions proof cur h, h]
  | rollback id => simp [Ledger.step, RollbackTxBatch_of_active ledger id cur h, h]
  | tempHash => simp [Ledger.step, Ledger.GetTempStateHash, h, Op.isLifecycle]

theorem Ledger.run_of_active (env : Collaborators) (ops : List Op) :
    ∀ (ledger : Ledger) (cur : Dyn), ledger.currentID = some cur →
      (ledger.run env ops).1.map Prod.fst = ops ∧
      (∀ r ∈ (ledger.run env ops).1, r.1.isLifecycle = true → r.2 ≠ none) ∧
      (ledger.run env ops).2.currentID = some cur ∧
      (ledger.run env ops).2.state = ledger.state ∧
      (ledger.run env ops).2.blockchain = ledger.blockchain := by
  induction ops with
  | nil => intro ledger cur h; simp [Ledger.run, h]
  | cons op rest ih =>
    intro ledger cur h
    obtain ⟨s1, s2, s3, s4⟩ := Ledger.step_of_active env ledger op cur h
    obtain ⟨r1, r2, r3, r4, r5⟩ := ih (ledger.step env op).2 cur s1
    refine ⟨by simp [Ledger.run, r1], ?_, by simpa [Ledger.run] using r3,
      by simpa [Ledger.run] using r4.trans s2, by simpa [Ledger.run] using r5.trans s3⟩
    intro r hr
    simp only [Ledger.run, List.mem_cons] at hr
    rcases hr with rfl | hr
    · exact s4
    · exact r2 r hr

/-- C18: if `currentID` is non-nil, then over every finite sequence of
`BeginTxBatch`, `CommitTxBatch`, `RollbackTxBatch` and `GetTempStateHash`
calls with arbitrary arguments, every call of the sequence is performed,
every begin, commit and rollback among them returns an error, and at the
end `currentID`, the state (overlay included) and the block store are equal
to their values at the start. -/
theorem active_is_absorbing (env : Collaborators) (ledger : Ledger) (ops : List Op)
    (h : ledger.currentID ≠ none) :
    (ledger.run env ops).1.map Prod.fst = ops ∧
    (∀ r ∈ (ledger.run env ops).1, r.1.isLifecycle = true → r.2 ≠ none) ∧
    (ledger.run env ops).2.currentID = ledger.currentID ∧
    (ledger.run env ops).2.state = ledger.state ∧
    (ledger.run env ops).2.blockchain = ledger.blockchain := by
  cases hc : ledger.currentID with
  | none => exact absurd hc h
  | some cur => exact Ledger.run_of_active env ops ledger cur hc

/-- C18 at the ledger with `"tx1"` in progress and a sequence holding calls
of all four kinds: each lifecycle call fails with the error naming `tx1`, and
the id, the state and the chain are the ones at the start. -/
theorem active_is_absorbing_witness :
    activeLedger.currentID ≠ none ∧
    ((activeLedger.run appendingStore sampleOps).1.map Prod.fst = sampleOps ∧
      (∀ r ∈ (activeLedger.run appendingStore sampleOps).1,
        r.1.isLifecycle = true → r.2 ≠ none) ∧
      (activeLedger.run appendingStore sampleOps).2.currentID = activeLedger.currentID ∧
      (activeLedger.run appendingStore sampleOps).2.state = activeLedger.state ∧
      (activeLedger.run appendingStore sampleOps).2.blockchain = activeLedger.blockchain) ∧
    (activeLedger.run appendingStore sampleOps).1.map Prod.snd
      = [none, some "Another TxGroup [tx1] already in-progress",
         some "Another TxGroup [tx1] already in-progress",
         some "Another TxGroup [tx1] already in-progress", none] :=
  ⟨by decide, active_is_absorbing appendingStore activeLedger sampleOps (by decide), by decide⟩

/-! ## The nil id -/

/-- C19: on an Idle coordinator `BeginTxBatch` with a nil id returns success
and hands back the ledger as it was, `currentID` still nil; a following
`BeginTxBatch` with any id then succeeds as well. -/
theorem BeginTxBatch_nil_id_accepted (ledger : Ledger) (id : Iface)
    (h : ledger.currentID = none) :
    ledger.BeginTxBatch none = (none, ledger) ∧
    (ledger.BeginTxBatch none).2.currentID = none ∧
    ((ledger.BeginTxBatch none).2.BeginTxBatch id).1 = none ∧
    ((ledger.BeginTxBatch none).2.BeginTxBatch id).2.currentID = id := by
  have h0 : ledger.BeginTxBatch none = (none, ledger) := by
    rw [BeginTxBatch_of_idle ledger none h]
    cases ledger
    simp_all
  rw [h0]
  simp [BeginTxBatch_of_idle ledger id h, h]

/-- C19 at the idle sample ledger: a begin with the nil id, then a begin
with `"tx1"`. -/
theorem BeginTxBatch_nil_id_accepted_witness :
    idleLedger.currentID = none ∧
    idleLedger.BeginTxBatch none = (none, idleLedger) ∧
    (idleLedger.BeginTxBatch none).2.currentID = none ∧
    ((idleLedger.BeginTxBatch none).2.BeginTxBatch (some (Dyn.str "tx1"))).1 = none ∧
    ((idleLedger.BeginTxBatch none).2.BeginTxBatch (some (Dyn.str "tx1"))).2.currentID
      = some (Dyn.str "tx1") :=
  ⟨by decide, BeginTxBatch_nil_id_accepted idleLedger (some (Dyn.str "tx1")) (by decide)⟩

end Openchain
